import Mathlib

/-!
Shallow embedding of the chain-protocol layer of the bittensor-quick-register
client (src/client.rs).

Bytes are modelled as `List Nat` (each element a byte value).  The external
hash primitives `twox_128` and `blake2_256` (from the sp_core crate, outside
this repository) are taken as explicit function parameters; the only facts
the theorems use about them are their output lengths (16 and 32 bytes).
The sr25519 signing primitive is likewise a parameter producing the raw
64 signature bytes.  The JSON-RPC node is modelled as an oracle (`Chain`)
mapping a storage query to a transport error, an absent value, or raw bytes;
hex encoding of addresses and payloads on the wire is a bijective
presentation layer and is not re-modelled.
-/

namespace Subtensor

set_option maxRecDepth 8192

/-- Equality of `Except` results is decidable componentwise; used to evaluate
the client operations on concrete oracles. -/
instance {ε α : Type} [DecidableEq ε] [DecidableEq α] :
    DecidableEq (Except ε α) := fun x y =>
  match x, y with
  | Except.ok a, Except.ok b =>
    if h : a = b then Decidable.isTrue (congrArg Except.ok h)
    else Decidable.isFalse (fun hh => h (Except.ok.inj hh))
  | Except.error a, Except.error b =>
    if h : a = b then Decidable.isTrue (congrArg Except.error h)
    else Decidable.isFalse (fun hh => h (Except.error.inj hh))
  | Except.ok _, Except.error _ => Decidable.isFalse (fun hh => Except.noConfusion hh)
  | Except.error _, Except.ok _ => Decidable.isFalse (fun hh => Except.noConfusion hh)

/-- Little-endian byte encoding of `n` into exactly `w` bytes (the SCALE
encoding of fixed-width integers; values wider than `w` bytes truncate,
matching Rust integer casts). -/
def leBytes : Nat → Nat → List Nat
  | 0, _ => []
  | w + 1, n => n % 256 :: leBytes w (n / 256)

/-- Little-endian interpretation of a byte list (`uN::from_le_bytes`). -/
def fromLEBytes : List Nat → Nat
  | [] => 0
  | b :: rest => b + 256 * fromLEBytes rest

/-- Models `u16::from_le_bytes([b[0], b[1]])` on a buffer already known to
hold at least two bytes.  The source's indexing is unguarded in
`get_subnet_info` and panics on shorter buffers; the client operations below
therefore apply this helper only behind an explicit two-byte bound — either
the source's own guard (`check_registration`) or the panic model of
`get_subnet_info` (`Outcome.panicked` on the short branch). -/
def u16_from_le (b : List Nat) : Nat := b.getD 0 0 + 256 * b.getD 1 0

/-- Byte values of a storage-item or pallet name string (ASCII). -/
def strBytes (s : String) : List Nat := s.data.map Char.toNat

/-- SCALE compact encoding of an unsigned integer, used by
`Vec<u8>::encode_to` for the length prefix. -/
def scaleCompact (n : Nat) : List Nat :=
  if n < 64 then [n <<< 2]
  else if n < 16384 then leBytes 2 (n <<< 2 ||| 1)
  else if n < 1073741824 then leBytes 4 (n <<< 2 ||| 2)
  else ((Nat.log 256 n + 1 - 4) <<< 2 ||| 3) :: leBytes (Nat.log 256 n + 1) n

/-- SCALE encoding of a `Vec<u8>`: compact length prefix followed by the raw
bytes.  This is what `call.encode_to(..)` and `extra.encode_to(..)` produce
in the source, since both are `Vec<u8>`. -/
def scaleEncBytes (b : List Nat) : List Nat := scaleCompact b.length ++ b

/-- Trailing-zero count of a 64-bit value (`u64::trailing_zeros`). -/
def trailingZeros64 (x : Nat) : Nat :=
  match (List.range 64).findIdx? (fun i => (x >>> i) % 2 == 1) with
  | some i => i
  | none => 64

/-- Storage-key derivation of `encode_bittensor_storage_key` (client.rs):
twox_128 of the pallet name "SubtensorModule", then twox_128 of the storage
item name, then each u16 map key appended as its raw 2-byte little-endian
encoding (Identity hasher).  The source hex-encodes these bytes with a "0x"
prefix for the wire. -/
def encode_bittensor_storage_key (twox_128 : List Nat → List Nat)
    (storage_name : String) (keys : List Nat) : List Nat :=
  twox_128 (strBytes "SubtensorModule") ++ twox_128 (strBytes storage_name)
    ++ (keys.map (leBytes 2)).flatten

/-- Storage-key derivation inlined in `get_bittensor_storage_with_account`
(client.rs): the same 32-byte prefix, then the blake2_256 hash of the
concatenation of the little-endian netuid and the 32 raw account bytes. -/
def account_storage_key (twox_128 blake2_256 : List Nat → List Nat)
    (storage_name : String) (netuid : Nat) (account : List Nat) : List Nat :=
  twox_128 (strBytes "SubtensorModule") ++ twox_128 (strBytes storage_name)
    ++ blake2_256 (leBytes 2 netuid ++ account)

/-- Signed-extra section built by `create_signed_extra` (client.rs): a mortal
era byte (period 64), a zero padding byte, the nonce as 8 little-endian
bytes, and a zero tip as 8 little-endian bytes.  The era byte reproduces the
Rust u8 arithmetic: `((period.trailing_zeros() - 1).max(1) as u8)
| ((phase / (period >> 4)) as u8) << 6`, where the u8 shift discards bits
shifted past bit 7. -/
def create_signed_extra (nonce block_number : Nat) : List Nat :=
  let era_period := 64
  let phase := block_number % era_period
  let era := (max (trailingZeros64 era_period - 1) 1) % 256
      ||| (((phase / (era_period >>> 4)) % 256) <<< 6) % 256
  era :: 0 :: (leBytes 8 nonce ++ leBytes 8 0)

/-- Payload assembled for signing in `create_signed_extrinsic`:
`call.encode_to(&mut payload); extra.encode_to(&mut payload)` — both are
`Vec<u8>`, so each contributes a SCALE compact length prefix before its
bytes. -/
def extrinsic_payload (call extra : List Nat) : List Nat :=
  scaleEncBytes call ++ scaleEncBytes extra

/-- Pre-hash branch of `create_signed_extrinsic`: a payload longer than 256
bytes is replaced by its blake2_256 hash before signing. -/
def signing_payload (blake2_256 : List Nat → List Nat) (payload : List Nat) :
    List Nat :=
  if payload.length > 256 then blake2_256 payload else payload

/-- Full extrinsic assembly of `create_signed_extrinsic` (client.rs).
`account_id` is the signer's 32 raw AccountId bytes (AccountId32 encodes with
no length prefix), `sign` models `Sr25519Pair::sign` returning the raw
64 signature bytes (the sr25519 Signature also encodes with no prefix).
The extra and the call are `Vec<u8>` and therefore encode with a compact
length prefix each.  The whole envelope is prefixed by the byte length OR-ed
with 0x8000_0000, encoded as a plain 4-byte little-endian u32. -/
def create_signed_extrinsic (blake2_256 sign : List Nat → List Nat)
    (account_id call : List Nat) (nonce block_number : Nat) : List Nat :=
  let extra := create_signed_extra nonce block_number
  let payload := extrinsic_payload call extra
  let sp := signing_payload blake2_256 payload
  let signature := sign sp
  let extrinsic := 0x84 :: (account_id ++ signature
      ++ scaleEncBytes extra ++ scaleEncBytes call)
  leBytes 4 ((extrinsic.length % 2 ^ 32) ||| 0x80000000) ++ extrinsic

/-- Call encoding of `encode_burned_register_call` (client.rs): module index
8, call index 1, little-endian netuid, raw 32 hotkey bytes, little-endian
burn amount. -/
def encode_burned_register_call (netuid : Nat) (hotkey : List Nat)
    (burn_amount : Nat) : List Nat :=
  8 :: 1 :: (leBytes 2 netuid ++ hotkey ++ leBytes 8 burn_amount)

/-- Balance breakdown of the on-chain account record (struct AccountData in
client.rs). -/
structure AccountData where
  free : Nat
  reserved : Nat
  frozen : Nat
  flags : Nat
deriving DecidableEq, Repr

/-- On-chain account record (struct AccountInfo in client.rs). -/
structure AccountInfo where
  nonce : Nat
  consumers : Nat
  providers : Nat
  sufficients : Nat
  data : AccountData
deriving DecidableEq, Repr

/-- Account record with every field zero, synthesized by the source for
accounts that do not exist on chain and for undersized fallback buffers. -/
def zeroAccountInfo : AccountInfo :=
  { nonce := 0, consumers := 0, providers := 0, sufficients := 0
    data := { free := 0, reserved := 0, frozen := 0, flags := 0 } }

/-- Decoding chain of `get_account_info` on a present raw buffer: the
canonical SCALE decode of AccountInfo (four u32 fields then four u128
fields, 80 bytes; it fails exactly when fewer than 80 bytes are present
since fixed-width decoding has no other failure mode), then the manual
fixed-offset fallback for buffers of at least 56 bytes (with the source's
inner re-checks of the 48- and 56-byte bounds kept), else all fields zero. -/
def decode_account_info (bytes : List Nat) : AccountInfo :=
  if 80 ≤ bytes.length then
    { nonce := fromLEBytes (bytes.take 4)
      consumers := fromLEBytes ((bytes.drop 4).take 4)
      providers := fromLEBytes ((bytes.drop 8).take 4)
      sufficients := fromLEBytes ((bytes.drop 12).take 4)
      data :=
        { free := fromLEBytes ((bytes.drop 16).take 16)
          reserved := fromLEBytes ((bytes.drop 32).take 16)
          frozen := fromLEBytes ((bytes.drop 48).take 16)
          flags := fromLEBytes ((bytes.drop 64).take 16) } }
  else if 56 ≤ bytes.length then
    { nonce := fromLEBytes (bytes.take 4)
      consumers := fromLEBytes ((bytes.drop 4).take 4)
      providers := fromLEBytes ((bytes.drop 8).take 4)
      sufficients := fromLEBytes ((bytes.drop 12).take 4)
      data :=
        { free := fromLEBytes ((bytes.drop 16).take 16)
          reserved :=
            if 48 ≤ bytes.length then fromLEBytes ((bytes.drop 32).take 16)
            else 0
          frozen :=
            if 56 ≤ bytes.length then fromLEBytes ((bytes.drop 48).take 8)
            else 0
          flags := 0 } }
  else zeroAccountInfo

/-- A storage read request issued over `state_getStorage`, identified by the
inputs from which the source derives the hex address: a plain SubtensorModule
item with u16 map keys (`encode_bittensor_storage_key`), a SubtensorModule
double-map item keyed by (netuid, account) (`get_bittensor_storage_with_account`),
or the System::Account item for an account (`encode_system_account_storage_key`). -/
inductive Query where
  | plain (name : String) (keys : List Nat)
  | withAccount (name : String) (netuid : Nat) (account : List Nat)
  | sysAccount (account : List Nat)
deriving DecidableEq, Repr

/-- Oracle model of the JSON-RPC node: a storage query yields a transport
error, an absent value, or raw bytes; the current block number likewise can
transport-fail.  Hex decoding of responses is absorbed into the oracle. -/
structure Chain where
  storage : Query → Except String (Option (List Nat))
  blockNumber : Except String Nat

/-- Raw storage read of `get_bittensor_storage` (client.rs): transport
errors propagate, absence is not an error. -/
def get_bittensor_storage (c : Chain) (name : String) (keys : List Nat) :
    Except String (Option (List Nat)) :=
  c.storage (Query.plain name keys)

/-- SCALE decode of a u16 from a storage buffer: the first two bytes,
little-endian; fails when fewer than two bytes are present.  Trailing bytes
are ignored, as in parity-scale-codec. -/
def scaleDecodeU16 (b : List Nat) : Option Nat :=
  if 2 ≤ b.length then some (fromLEBytes (b.take 2)) else none

/-- SCALE decode of a u64 from a storage buffer (eight bytes, little-endian). -/
def scaleDecodeU64 (b : List Nat) : Option Nat :=
  if 8 ≤ b.length then some (fromLEBytes (b.take 8)) else none

/-- SCALE decode of a U256 from a storage buffer (32 bytes, little-endian). -/
def scaleDecodeU256 (b : List Nat) : Option Nat :=
  if 32 ≤ b.length then some (fromLEBytes (b.take 32)) else none

/-- SCALE decode of an AccountId32 from a storage buffer (32 raw bytes). -/
def scaleDecodeAccount (b : List Nat) : Option (List Nat) :=
  if 32 ≤ b.length then some (b.take 32) else none

/-- Decoded storage read of `get_bittensor_storage_decoded` (client.rs):
transport errors propagate, absence becomes a "Storage key not found" error,
and a decode failure becomes a "Failed to decode" error. -/
def get_bittensor_storage_decoded {α : Type} (dec : List Nat → Option α)
    (c : Chain) (name : String) (keys : List Nat) : Except String α :=
  match get_bittensor_storage c name keys with
  | Except.error e => Except.error e
  | Except.ok none => Except.error "Storage key not found"
  | Except.ok (some bytes) =>
    match dec bytes with
    | some v => Except.ok v
    | none => Except.error "Failed to decode"

/-- Field getter `get_bittensor_u16` (client.rs): the decoded read followed
by `.or_else(|_| Ok(0))`, which absorbs every failure — transport error,
absent key, or decode failure — into the default 0, so the getter is total. -/
def get_bittensor_u16 (c : Chain) (name : String) (keys : List Nat) : Nat :=
  match get_bittensor_storage_decoded scaleDecodeU16 c name keys with
  | Except.ok v => v
  | Except.error _ => 0

/-- Field getter `get_bittensor_u64` (client.rs), same absorbing policy. -/
def get_bittensor_u64 (c : Chain) (name : String) (keys : List Nat) : Nat :=
  match get_bittensor_storage_decoded scaleDecodeU64 c name keys with
  | Except.ok v => v
  | Except.error _ => 0

/-- Field getter `get_bittensor_u256` (client.rs), same absorbing policy. -/
def get_bittensor_u256 (c : Chain) (name : String) (keys : List Nat) : Nat :=
  match get_bittensor_storage_decoded scaleDecodeU256 c name keys with
  | Except.ok v => v
  | Except.error _ => 0

/-- Field getter `get_bittensor_account` (client.rs): absorbs every failure
into the zeroed account id `AccountId32::new([0u8; 32])`. -/
def get_bittensor_account (c : Chain) (name : String) (keys : List Nat) :
    List Nat :=
  match get_bittensor_storage_decoded scaleDecodeAccount c name keys with
  | Except.ok v => v
  | Except.error _ => List.replicate 32 0

/-- Errors surfaced by the client operations (anyhow errors in the source,
split here by the message they carry). -/
inductive ClientError where
  | transport (msg : String)
  | networkNotFoundWithTotal (netuid total : Nat)
  | networkNotFound (netuid : Nat)
  | networkZeroNeurons (netuid : Nat)
deriving DecidableEq, Repr

/-- Subnet snapshot assembled by `get_subnet_info` (struct SubnetInfo in
client.rs).  `owner` holds the owner's raw 32 account bytes; the source
additionally formats them as an SS58 string, an external presentation
concern. -/
structure SubnetInfo where
  netuid : Nat
  difficulty : Nat
  immunity_period : Nat
  min_allowed_weights : Nat
  max_weight_limit : Nat
  max_allowed_validators : Nat
  max_n : Nat
  tempo : Nat
  burn : Nat
  owner : List Nat
  emission_value : Nat
  rho : Nat
  kappa : Nat
  scaling_law_power : Nat
  subnetwork_n : Nat
  blocks_since_epoch : Nat
  modality : Nat
  network_modality : Nat
  network_connect : List Nat
  max_allowed_uids : Nat
  registered_neurons : Nat
deriving DecidableEq, Repr

/-- The fifteen snapshot-field storage reads issued by `get_subnet_info`
after the defining SubnetworkN read succeeds, in source order. -/
def snapshot_field_queries (netuid : Nat) : List Query :=
  [Query.plain "Difficulty" [netuid], Query.plain "Tempo" [netuid],
   Query.plain "ImmunityPeriod" [netuid], Query.plain "MinAllowedWeights" [netuid],
   Query.plain "MaxWeightsLimit" [netuid], Query.plain "MaxAllowedValidators" [netuid],
   Query.plain "MaxAllowedUids" [netuid], Query.plain "Burn" [netuid],
   Query.plain "SubnetOwner" [netuid], Query.plain "NetworkModality" [netuid],
   Query.plain "EmissionValues" [netuid], Query.plain "Rho" [netuid],
   Query.plain "Kappa" [netuid], Query.plain "ScalingLawPower" [netuid],
   Query.plain "BlocksSinceLastStep" [netuid]]

/-- Snapshot assembly from the absorbing field getters, as performed on the
success path of `get_subnet_info` with neuron count `n`. -/
def mk_snapshot (c : Chain) (netuid n : Nat) : SubnetInfo :=
  { netuid := netuid
    difficulty := get_bittensor_u256 c "Difficulty" [netuid]
    immunity_period := get_bittensor_u16 c "ImmunityPeriod" [netuid]
    min_allowed_weights := get_bittensor_u16 c "MinAllowedWeights" [netuid]
    max_weight_limit := get_bittensor_u16 c "MaxWeightsLimit" [netuid]
    max_allowed_validators := get_bittensor_u16 c "MaxAllowedValidators" [netuid]
    max_n := get_bittensor_u16 c "MaxAllowedUids" [netuid]
    tempo := get_bittensor_u16 c "Tempo" [netuid]
    burn := get_bittensor_u64 c "Burn" [netuid]
    owner := get_bittensor_account c "SubnetOwner" [netuid]
    emission_value := get_bittensor_u64 c "EmissionValues" [netuid]
    rho := get_bittensor_u16 c "Rho" [netuid]
    kappa := get_bittensor_u16 c "Kappa" [netuid]
    scaling_law_power := get_bittensor_u16 c "ScalingLawPower" [netuid]
    subnetwork_n := n
    blocks_since_epoch := get_bittensor_u64 c "BlocksSinceLastStep" [netuid]
    modality := get_bittensor_u16 c "NetworkModality" [netuid]
    network_modality := get_bittensor_u16 c "NetworkModality" [netuid]
    network_connect := []
    max_allowed_uids := get_bittensor_u16 c "MaxAllowedUids" [netuid]
    registered_neurons := n }

/-- Storage queries issued by `debug_account_info` (client.rs) for the subnet
owner when `show_info` holds: one raw System::Account read, and — only when
it returns bytes — one more through `get_account_info`; every failure inside
is swallowed at the call site. -/
def debug_account_queries (c : Chain) (account : List Nat) : List Query :=
  match c.storage (Query.sysAccount account) with
  | Except.ok (some _) => [Query.sysAccount account, Query.sysAccount account]
  | _ => [Query.sysAccount account]

/-- Termination behaviour of an operation whose source can abort the
process: `panicked` models a Rust panic (here: the unguarded `raw[0]` /
`raw[1]` indexing of `get_subnet_info` on a buffer shorter than two bytes),
`returned` a normal return of an error or a value. -/
inductive Outcome (α : Type) where
  | panicked
  | returned (r : Except ClientError α)
deriving DecidableEq, Repr

/-- Operation `get_subnet_info` (client.rs), paired with the ordered trace of
storage queries it issues.  Reads the defining SubnetworkN field first; when
it is absent, issues one diagnostic TotalNetworks read to enrich the error,
then fails; when it decodes to zero, fails at once; otherwise evaluates the
fifteen absorbing field getters, reads the current block (not a storage
query), and assembles the snapshot.  Both the SubnetworkN and the
TotalNetworks buffers are decoded by unguarded `u16::from_le_bytes([b[0],
b[1]])` indexing in the source, which panics when fewer than two bytes are
present: those branches are `Outcome.panicked` here, with the trace of reads
already issued at the abort.  The `show_info` flag only adds console output
plus the swallowed `debug_account_info` reads on the owner. -/
def get_subnet_info (c : Chain) (netuid : Nat) (show_info : Bool) :
    Outcome SubnetInfo × List Query :=
  let q0 := Query.plain "SubnetworkN" [netuid]
  match c.storage q0 with
  | Except.error e => (Outcome.returned (Except.error (ClientError.transport e)), [q0])
  | Except.ok none =>
    let q1 := Query.plain "TotalNetworks" []
    match c.storage q1 with
    | Except.error e =>
      (Outcome.returned (Except.error (ClientError.transport e)), [q0, q1])
    | Except.ok (some total_bytes) =>
      if 2 ≤ total_bytes.length then
        (Outcome.returned (Except.error (ClientError.networkNotFoundWithTotal netuid
          (u16_from_le total_bytes))), [q0, q1])
      else (Outcome.panicked, [q0, q1])
    | Except.ok none =>
      (Outcome.returned (Except.error (ClientError.networkNotFound netuid)), [q0, q1])
  | Except.ok (some nb) =>
    if 2 ≤ nb.length then
      let subnetwork_n := u16_from_le nb
      if subnetwork_n = 0 then
        (Outcome.returned (Except.error (ClientError.networkZeroNeurons netuid)), [q0])
      else
        match c.blockNumber with
        | Except.error e =>
          (Outcome.returned (Except.error (ClientError.transport e)),
            q0 :: snapshot_field_queries netuid)
        | Except.ok _current_block =>
          let dbg := if show_info
            then debug_account_queries c (get_bittensor_account c "SubnetOwner" [netuid])
            else []
          (Outcome.returned (Except.ok (mk_snapshot c netuid subnetwork_n)),
            q0 :: (snapshot_field_queries netuid ++ dbg))
    else (Outcome.panicked, [q0])

/-- Axon endpoint record (struct AxonInfo in client.rs). -/
structure AxonInfo where
  block : Nat
  version : Nat
  ip : Nat
  port : Nat
  ip_type : Nat
  protocol : Nat
  placeholder1 : Nat
  placeholder2 : Nat
deriving DecidableEq, Repr

/-- Prometheus endpoint record (struct PrometheusInfo in client.rs). -/
structure PrometheusInfo where
  block : Nat
  version : Nat
  ip : Nat
  port : Nat
  ip_type : Nat
deriving DecidableEq, Repr

/-- Neuron record (struct NeuronInfo in client.rs); accounts are raw
32-byte lists. -/
structure NeuronInfo where
  hotkey : List Nat
  coldkey : List Nat
  uid : Nat
  netuid : Nat
  active : Bool
  axon_info : AxonInfo
  prometheus_info : PrometheusInfo
  stake : List (List Nat × Nat)
  rank : Nat
  emission : Nat
  incentive : Nat
  consensus : Nat
  trust : Nat
  validator_trust : Nat
  dividends : Nat
  last_update : Nat
  validator_permit : Bool
  weights : List (Nat × Nat)
  bonds : List (Nat × Nat)
  pruning_score : Nat
deriving DecidableEq, Repr

/-- Placeholder neuron record synthesized by `check_registration` when
neuron bytes are present: hotkey, uid and netuid filled in, coldkey zeroed,
active true, everything else defaulted (full decoding is a known gap in the
source). -/
def placeholder_neuron (hotkey : List Nat) (uid netuid : Nat) : NeuronInfo :=
  { hotkey := hotkey
    coldkey := List.replicate 32 0
    uid := uid
    netuid := netuid
    active := true
    axon_info :=
      { block := 0, version := 0, ip := 0, port := 0, ip_type := 0
        protocol := 0, placeholder1 := 0, placeholder2 := 0 }
    prometheus_info := { block := 0, version := 0, ip := 0, port := 0, ip_type := 0 }
    stake := []
    rank := 0
    emission := 0
    incentive := 0
    consensus := 0
    trust := 0
    validator_trust := 0
    dividends := 0
    last_update := 0
    validator_permit := false
    weights := []
    bonds := []
    pruning_score := 0 }

/-- Operation `check_registration` (client.rs): reads the Uids double map for
(netuid, hotkey); absent — or present with fewer than two bytes — yields the
non-error "not registered" result `Except.ok none`.  A present uid leads to a
Neurons read for (netuid, uid): present bytes yield the placeholder record,
absent yields `Except.ok none` again.  Transport errors propagate. -/
def check_registration (c : Chain) (netuid : Nat) (hotkey : List Nat) :
    Except ClientError (Option NeuronInfo) :=
  match c.storage (Query.withAccount "Uids" netuid hotkey) with
  | Except.error e => Except.error (ClientError.transport e)
  | Except.ok uid_data =>
    match uid_data with
    | some bytes =>
      if 2 ≤ bytes.length then
        let uid := u16_from_le bytes
        match c.storage (Query.plain "Neurons" [netuid, uid]) with
        | Except.error e => Except.error (ClientError.transport e)
        | Except.ok (some _neuron_bytes) =>
          Except.ok (some (placeholder_neuron hotkey uid netuid))
        | Except.ok none => Except.ok none
      else Except.ok none
    | none => Except.ok none

/-- Operation `get_account_info` (client.rs): one System::Account storage
read; transport errors propagate, a present buffer goes through the decode
chain, an absent account is synthesized as the all-zero record. -/
def get_account_info (c : Chain) (account : List Nat) :
    Except ClientError AccountInfo :=
  match c.storage (Query.sysAccount account) with
  | Except.error e => Except.error (ClientError.transport e)
  | Except.ok (some bytes) => Except.ok (decode_account_info bytes)
  | Except.ok none => Except.ok zeroAccountInfo

/-- Operation `get_account_balance` (client.rs): returns the decoded record's
free balance cast `as u64`, i.e. reduced modulo 2^64. -/
def get_account_balance (c : Chain) (account : List Nat) :
    Except ClientError Nat :=
  match get_account_info c account with
  | Except.error e => Except.error e
  | Except.ok info => Except.ok (info.data.free % 2 ^ 64)

/-! Concrete inputs used to settle the individual claims. -/

/-- Hotkey bytes for the concrete burned-register call: all-ones. -/
def c2_hotkey : List Nat := List.replicate 32 1

/-- Concrete burned-register call: netuid 1, all-ones hotkey, burn 12345. -/
def c2_call : List Nat := encode_burned_register_call 1 c2_hotkey 12345

/-- Concrete signer account bytes. -/
def c2_account : List Nat := List.replicate 32 2

/-- Concrete signature bytes produced by the dummy signing function. -/
def c2_sig : List Nat := List.replicate 64 7

/-- Signed extra for nonce 0 at block 0. -/
def c2_extra : List Nat := create_signed_extra 0 0

/-- The extrinsic assembled from the concrete inputs, with dummy hash and
signing functions (constant outputs of the correct widths). -/
def c2_extrinsic : List Nat :=
  create_signed_extrinsic (fun _ => List.replicate 32 0) (fun _ => c2_sig)
    c2_account c2_call 0 0

/-- The 56-byte fallback buffer of the spec's balance test: free =
10_000_000_000 encoded little-endian at offset 16, all other bytes zero. -/
def c5_buffer : List Nat :=
  List.replicate 16 0 ++ leBytes 16 10000000000 ++ List.replicate 24 0

/-- Oracle on which every storage read reports an absent value. -/
def c6_chain : Chain := ⟨fun _ => Except.ok none, Except.ok 0⟩

/-- Oracle with an absent SubnetworkN and a one-byte TotalNetworks buffer —
the input on which the source program aborts on unguarded indexing. -/
def c6_chain_short : Chain :=
  ⟨fun q =>
    if q = Query.plain "TotalNetworks" [] then Except.ok (some [7])
    else Except.ok none,
   Except.ok 0⟩

/-- Hotkey used for the registration-check scenarios. -/
def c7_hotkey : List Nat := List.replicate 32 9

/-- Oracle with a Uids entry (uid 3) for the hotkey but no Neurons entry. -/
def c7_chain : Chain :=
  ⟨fun q =>
    if q = Query.withAccount "Uids" 1 c7_hotkey then Except.ok (some [3, 0])
    else Except.ok none,
   Except.ok 0⟩

/-- Oracle with both the Uids entry (uid 3) and a Neurons entry present. -/
def c7_chain2 : Chain :=
  ⟨fun q =>
    if q = Query.withAccount "Uids" 1 c7_hotkey then Except.ok (some [3, 0])
    else if q = Query.plain "Neurons" [1, 3] then Except.ok (some [1])
    else Except.ok none,
   Except.ok 0⟩

/-- Account whose record carries a free balance of 2^64. -/
def c8_account : List Nat := List.replicate 32 8

/-- Canonical 80-byte account buffer with free = 2^64 and all else zero. -/
def c8_buffer : List Nat :=
  List.replicate 16 0 ++ leBytes 16 (2 ^ 64) ++ List.replicate 48 0

/-- Oracle serving the 2^64-free-balance record for `c8_account`. -/
def c8_chain : Chain :=
  ⟨fun q =>
    if q = Query.sysAccount c8_account then Except.ok (some c8_buffer)
    else Except.ok none,
   Except.ok 0⟩

/-- Oracle with one registered neuron on subnet 1 whose Tempo read fails
with a transport error; every other field read reports absence. -/
def c9_chain : Chain :=
  ⟨fun q =>
    if q = Query.plain "SubnetworkN" [1] then Except.ok (some [1, 0])
    else if q = Query.plain "Tempo" [1] then Except.error "connection timed out"
    else Except.ok none,
   Except.ok 100⟩

/-- Oracle on which the System::Account read reports an absent account. -/
def c10_chain : Chain := ⟨fun _ => Except.ok none, Except.ok 5⟩

/-! Helper lemmas shared by the claim theorems. -/

/-- The little-endian encoder always produces exactly the requested width. -/
theorem leBytes_length (w : Nat) : ∀ n : Nat, (leBytes w n).length = w := by
  induction w with
  | zero => intro n; rfl
  | succ w ih => intro n; simp [leBytes, ih]

/-- Claim C1: storage-address derivation for SubtensorModule items follows
the per-kind scheme — every address begins with the twox_128 hash of the
pallet name "SubtensorModule" followed by the twox_128 hash of the item
name; with no map keys the address is exactly this 32-byte prefix; each
identity-hashed u16 key is appended as its raw 2-byte little-endian
encoding; and the (netuid, account) double-map suffix is the 32-byte
blake2_256 hash of the little-endian netuid concatenated with the 32 raw
account bytes, not the unhashed 34-byte concatenation itself. -/
theorem c1_storage_address_scheme
    (twox_128 blake2_256 : List Nat → List Nat)
    (h16 : ∀ b, (twox_128 b).length = 16)
    (h32 : ∀ b, (blake2_256 b).length = 32)
    (storage_name : String) (keys : List Nat) (netuid : Nat)
    (account : List Nat) (hacct : account.length = 32) :
    encode_bittensor_storage_key twox_128 storage_name keys =
      (twox_128 (strBytes "SubtensorModule") ++ twox_128 (strBytes storage_name))
        ++ (keys.map (leBytes 2)).flatten
  ∧ encode_bittensor_storage_key twox_128 storage_name [] =
      twox_128 (strBytes "SubtensorModule") ++ twox_128 (strBytes storage_name)
  ∧ (encode_bittensor_storage_key twox_128 storage_name []).length = 32
  ∧ (∀ k, leBytes 2 k = [k % 256, k / 256 % 256])
  ∧ account_storage_key twox_128 blake2_256 storage_name netuid account =
      (twox_128 (strBytes "SubtensorModule") ++ twox_128 (strBytes storage_name))
        ++ blake2_256 (leBytes 2 netuid ++ account)
  ∧ (blake2_256 (leBytes 2 netuid ++ account)).length = 32
  ∧ blake2_256 (leBytes 2 netuid ++ account) ≠ leBytes 2 netuid ++ account := by
  refine ⟨?_, ?_, ?_, ?_, ?_, h32 _, ?_⟩
  · simp [encode_bittensor_storage_key]
  · simp [encode_bittensor_storage_key]
  · simp [encode_bittensor_storage_key, h16]
  · intro k; simp [leBytes]
  · simp [account_storage_key]
  · intro h
    have hlen := congrArg List.length h
    rw [h32, List.length_append, leBytes_length, hacct] at hlen
    omega

/-- Witness for C1 at concrete hash stand-ins of the correct output widths:
a dummy 16-byte twox and 32-byte blake, item name "Uids", keys [1, 2],
netuid 7 and an all-fives account. -/
theorem c1_storage_address_scheme_witness :
    encode_bittensor_storage_key (fun _ => List.replicate 16 3) "Uids" [1, 2] =
      (List.replicate 16 3 ++ List.replicate 16 3) ++ [1, 0, 2, 0]
  ∧ account_storage_key (fun _ => List.replicate 16 3) (fun _ => List.replicate 32 4)
      "Uids" 7 (List.replicate 32 5) =
      (List.replicate 16 3 ++ List.replicate 16 3) ++ List.replicate 32 4
  ∧ List.replicate 32 4 ≠ leBytes 2 7 ++ List.replicate 32 5 := by
  have h := c1_storage_address_scheme (fun _ => List.replicate 16 3)
    (fun _ => List.replicate 32 4) (fun b => by simp) (fun b => by simp)
    "Uids" [1, 2] 7 (List.replicate 32 5) (by simp)
  refine ⟨?_, ?_, ?_⟩
  · rw [h.1]; decide
  · exact h.2.2.2.2.1
  · exact h.2.2.2.2.2.2

/-- Claim C2 (code bug): the envelope assembled before the length prefix is
NOT the plain concatenation of version byte, account bytes, signature bytes,
extra bytes and call bytes, and the signing payload is NOT the plain
concatenation of call bytes and extra bytes: both the call and the extra are
Vec u8 values, so `encode_to` inserts a SCALE compact length prefix in front
of each (0xb0 before the 44-byte concrete call, 0x48 before the 18-byte
extra).  Evaluated here at the concrete burned-register call. -/
theorem c2_envelope_inserts_length_prefixes :
    c2_extrinsic.drop 4 ≠ 0x84 :: (c2_account ++ c2_sig ++ c2_extra ++ c2_call)
  ∧ c2_extrinsic.drop 4 =
      0x84 :: (c2_account ++ c2_sig ++ (72 :: c2_extra) ++ (176 :: c2_call))
  ∧ extrinsic_payload c2_call c2_extra ≠ c2_call ++ c2_extra
  ∧ extrinsic_payload c2_call c2_extra = (176 :: c2_call) ++ (72 :: c2_extra) := by
  exact ⟨by decide, by decide, by decide, by decide⟩

/-- Claim C3: a signing payload strictly longer than 256 bytes is replaced by
its 32-byte blake2_256 hash before signing, while a payload of 256 bytes or
fewer is signed unmodified. -/
theorem c3_payload_hash_threshold
    (blake2_256 : List Nat → List Nat)
    (h32 : ∀ b, (blake2_256 b).length = 32)
    (payload : List Nat) :
    (256 < payload.length →
       signing_payload blake2_256 payload = blake2_256 payload
     ∧ (signing_payload blake2_256 payload).length = 32)
  ∧ (payload.length ≤ 256 → signing_payload blake2_256 payload = payload) := by
  constructor
  · intro h
    have he : signing_payload blake2_256 payload = blake2_256 payload := by
      unfold signing_payload
      rw [if_pos h]
    exact ⟨he, by rw [he]; exact h32 _⟩
  · intro h
    unfold signing_payload
    rw [if_neg (by omega)]

/-- Witness for C3 at the threshold boundary: a 257-byte payload is replaced
by the (dummy) 32-byte hash, a 256-byte payload is passed through unchanged. -/
theorem c3_payload_hash_threshold_witness :
    signing_payload (fun _ => List.replicate 32 6) (List.replicate 257 1) =
      List.replicate 32 6
  ∧ signing_payload (fun _ => List.replicate 32 6) (List.replicate 256 1) =
      List.replicate 256 1 := by
  constructor
  · exact ((c3_payload_hash_threshold (fun _ => List.replicate 32 6)
      (fun b => by simp) (List.replicate 257 1)).1 (by simp)).1
  · exact (c3_payload_hash_threshold (fun _ => List.replicate 32 6)
      (fun b => by simp) (List.replicate 256 1)).2 (by simp)

/-- Claim C4: `create_signed_extra nonce block` is exactly 18 bytes — one era
byte packing the period-class value max(trailingZeros 64 - 1, 1) = 5 with
the phase nibble (block mod 64) / (64 / 16) shifted into the top bits, one
zero padding byte, the nonce as 8 little-endian bytes, and a zero tip as
8 little-endian zero bytes. -/
theorem c4_signed_extra_layout (n b : Nat) :
    create_signed_extra n b =
      ((max (trailingZeros64 64 - 1) 1
        ||| ((b % 64 / (64 / 16)) <<< 6) % 256) :: 0 ::
          (leBytes 8 n ++ leBytes 8 0))
  ∧ (create_signed_extra n b).length = 18
  ∧ max (trailingZeros64 64 - 1) 1 = 5
  ∧ leBytes 8 n = [n % 256, n / 256 % 256, n / 256 / 256 % 256,
      n / 256 / 256 / 256 % 256, n / 256 / 256 / 256 / 256 % 256,
      n / 256 / 256 / 256 / 256 / 256 % 256,
      n / 256 / 256 / 256 / 256 / 256 / 256 % 256,
      n / 256 / 256 / 256 / 256 / 256 / 256 / 256 % 256]
  ∧ leBytes 8 0 = List.replicate 8 0 := by
  have htz : max (trailingZeros64 64 - 1) 1 = 5 := by decide
  refine ⟨?_, ?_, htz, ?_, by decide⟩
  · show ((max (trailingZeros64 64 - 1) 1) % 256
        ||| (((b % 64 / (64 >>> 4)) % 256) <<< 6) % 256) :: 0 ::
          (leBytes 8 n ++ leBytes 8 0) = _
    have h4 : (64 : Nat) >>> 4 = 64 / 16 := by decide
    have hlt : b % 64 / (64 / 16) < 256 := by omega
    rw [htz, h4, Nat.mod_eq_of_lt hlt]
  · show (_ :: _ :: (leBytes 8 n ++ leBytes 8 0)).length = 18
    simp [leBytes_length]
  · simp [leBytes]

/-- Claim C5: when the canonical 80-byte account decode fails (fewer than
80 bytes) and at least 56 bytes are present, the fallback parses fixed
offsets — four little-endian u32 fields at 0..15, the u128 free balance at
16..31, the u128 reserved balance at 32..47, a u64 frozen balance at 48..55,
flags zero; with fewer than 56 bytes every field is zero; and the concrete
56-byte buffer with free = 10_000_000_000 at offset 16 decodes to
free = 10_000_000_000, reserved = 0, frozen = 0. -/
theorem c5_account_fallback_decode (bytes : List Nat) :
    (bytes.length < 80 → 56 ≤ bytes.length →
      decode_account_info bytes =
        { nonce := fromLEBytes (bytes.take 4)
          consumers := fromLEBytes ((bytes.drop 4).take 4)
          providers := fromLEBytes ((bytes.drop 8).take 4)
          sufficients := fromLEBytes ((bytes.drop 12).take 4)
          data :=
            { free := fromLEBytes ((bytes.drop 16).take 16)
              reserved := fromLEBytes ((bytes.drop 32).take 16)
              frozen := fromLEBytes ((bytes.drop 48).take 8)
              flags := 0 } })
  ∧ (bytes.length < 56 → decode_account_info bytes = zeroAccountInfo)
  ∧ decode_account_info c5_buffer =
      { nonce := 0, consumers := 0, providers := 0, sufficients := 0
        data := { free := 10000000000, reserved := 0, frozen := 0, flags := 0 } } := by
  refine ⟨?_, ?_, by decide⟩
  · intro h80 h56
    unfold decode_account_info
    rw [if_neg (by omega), if_pos h56, if_pos (by omega), if_pos h56]
  · intro h56
    unfold decode_account_info
    rw [if_neg (by omega), if_neg (by omega)]

/-- Witness for C5: the fallback branch applied to the concrete 56-byte
buffer yields exactly free = 10_000_000_000 with all other fields zero. -/
theorem c5_account_fallback_decode_witness :
    decode_account_info c5_buffer =
      { nonce := 0, consumers := 0, providers := 0, sufficients := 0
        data := { free := 10000000000, reserved := 0, frozen := 0, flags := 0 } } := by
  have h := (c5_account_fallback_decode c5_buffer).1 (by decide) (by decide)
  rw [h]; decide

/-- Claim C6 (counterexample): on an oracle where every read reports absence,
the absent SubnetworkN read does NOT leave the trace at just the defining
read — a further TotalNetworks storage read is issued before the failure is
returned (the failure itself is the not-found error, and no snapshot is
produced). -/
theorem c6_counterexample :
    c6_chain.storage (Query.plain "SubnetworkN" [1]) = Except.ok none
  ∧ (get_subnet_info c6_chain 1 false).2 ≠ [Query.plain "SubnetworkN" [1]]
  ∧ (get_subnet_info c6_chain 1 false).2 =
      [Query.plain "SubnetworkN" [1], Query.plain "TotalNetworks" []]
  ∧ (get_subnet_info c6_chain 1 false).1 =
      Outcome.returned (Except.error (ClientError.networkNotFound 1)) := by
  exact ⟨rfl, by decide, by decide, by decide⟩

/-- Claim C6 (amended): an absent SubnetworkN read never yields a snapshot;
exactly one further storage read — the diagnostic TotalNetworks read —
precedes the outcome, so no snapshot-field item is ever read; the outcome is
the not-found error when the diagnostic read is absent, the not-found error
carrying the total when it returns at least two bytes, and a process abort
(panic on unguarded indexing) when it returns fewer than two bytes.  A
SubnetworkN buffer of at least two bytes decoding to zero fails at once with
the zero-neurons error and no further read, while a SubnetworkN buffer
shorter than two bytes aborts the process at the defining read. -/
theorem c6_subnet_not_found (c : Chain) (netuid : Nat) :
    (c.storage (Query.plain "SubnetworkN" [netuid]) = Except.ok none →
        (∀ s, (get_subnet_info c netuid false).1 ≠ Outcome.returned (Except.ok s))
      ∧ (get_subnet_info c netuid false).2 =
          [Query.plain "SubnetworkN" [netuid], Query.plain "TotalNetworks" []]
      ∧ (∀ name keys, Query.plain name keys ∈ (get_subnet_info c netuid false).2 →
          name = "SubnetworkN" ∨ name = "TotalNetworks")
      ∧ (c.storage (Query.plain "TotalNetworks" []) = Except.ok none →
          (get_subnet_info c netuid false).1 =
            Outcome.returned (Except.error (ClientError.networkNotFound netuid)))
      ∧ (∀ tb, c.storage (Query.plain "TotalNetworks" []) = Except.ok (some tb) →
          2 ≤ tb.length →
          (get_subnet_info c netuid false).1 =
            Outcome.returned (Except.error
              (ClientError.networkNotFoundWithTotal netuid (u16_from_le tb))))
      ∧ (∀ tb, c.storage (Query.plain "TotalNetworks" []) = Except.ok (some tb) →
          tb.length < 2 →
          (get_subnet_info c netuid false).1 = Outcome.panicked))
  ∧ (∀ bytes, c.storage (Query.plain "SubnetworkN" [netuid]) = Except.ok (some bytes) →
      2 ≤ bytes.length → u16_from_le bytes = 0 →
        (get_subnet_info c netuid false).1 =
          Outcome.returned (Except.error (ClientError.networkZeroNeurons netuid))
      ∧ (get_subnet_info c netuid false).2 = [Query.plain "SubnetworkN" [netuid]])
  ∧ (∀ bytes, c.storage (Query.plain "SubnetworkN" [netuid]) = Except.ok (some bytes) →
      bytes.length < 2 →
        (get_subnet_info c netuid false).1 = Outcome.panicked
      ∧ (get_subnet_info c netuid false).2 = [Query.plain "SubnetworkN" [netuid]]) := by
  refine ⟨?_, ?_, ?_⟩
  · intro h
    cases hq1 : c.storage (Query.plain "TotalNetworks" []) with
    | error e =>
      have heq : get_subnet_info c netuid false =
          (Outcome.returned (Except.error (ClientError.transport e)),
           [Query.plain "SubnetworkN" [netuid], Query.plain "TotalNetworks" []]) := by
        simp only [get_subnet_info]
        rw [h, hq1]
      refine ⟨fun s => by rw [heq]; simp, by rw [heq], ?_, ?_, ?_, ?_⟩
      · intro name keys hmem
        rw [heq] at hmem
        simp only [List.mem_cons, List.mem_singleton, List.not_mem_nil, or_false] at hmem
        rcases hmem with h1 | h1
        · exact Or.inl (Query.plain.inj h1).1
        · exact Or.inr (Query.plain.inj h1).1
      · intro hr
        simp at hr
      · intro tb hr
        simp at hr
      · intro tb hr
        simp at hr
    | ok r =>
      cases r with
      | none =>
        have heq : get_subnet_info c netuid false =
            (Outcome.returned (Except.error (ClientError.networkNotFound netuid)),
             [Query.plain "SubnetworkN" [netuid], Query.plain "TotalNetworks" []]) := by
          simp only [get_subnet_info]
          rw [h, hq1]
        refine ⟨fun s => by rw [heq]; simp, by rw [heq], ?_, ?_, ?_, ?_⟩
        · intro name keys hmem
          rw [heq] at hmem
          simp only [List.mem_cons, List.mem_singleton, List.not_mem_nil, or_false] at hmem
          rcases hmem with h1 | h1
          · exact Or.inl (Query.plain.inj h1).1
          · exact Or.inr (Query.plain.inj h1).1
        · intro _hr
          rw [heq]
        · intro tb hr
          simp at hr
        · intro tb hr
          simp at hr
      | some tb =>
        by_cases hlen : 2 ≤ tb.length
        · have heq : get_subnet_info c netuid false =
              (Outcome.returned (Except.error
                (ClientError.networkNotFoundWithTotal netuid (u16_from_le tb))),
               [Query.plain "SubnetworkN" [netuid], Query.plain "TotalNetworks" []]) := by
            simp only [get_subnet_info]
            rw [h, hq1]
            simp [hlen]
          refine ⟨fun s => by rw [heq]; simp, by rw [heq], ?_, ?_, ?_, ?_⟩
          · intro name keys hmem
            rw [heq] at hmem
            simp only [List.mem_cons, List.mem_singleton, List.not_mem_nil, or_false] at hmem
            rcases hmem with h1 | h1
            · exact Or.inl (Query.plain.inj h1).1
            · exact Or.inr (Query.plain.inj h1).1
          · intro hr
            simp at hr
          · intro tb' hr _hlen'
            have htb : tb = tb' := Option.some.inj (Except.ok.inj hr)
            rw [← htb]
            rw [heq]
          · intro tb' hr hshort
            have htb : tb = tb' := Option.some.inj (Except.ok.inj hr)
            rw [← htb] at hshort
            omega
        · have heq : get_subnet_info c netuid false =
              (Outcome.panicked,
               [Query.plain "SubnetworkN" [netuid], Query.plain "TotalNetworks" []]) := by
            simp only [get_subnet_info]
            rw [h, hq1]
            simp [hlen]
          refine ⟨fun s => by rw [heq]; simp, by rw [heq], ?_, ?_, ?_, ?_⟩
          · intro name keys hmem
            rw [heq] at hmem
            simp only [List.mem_cons, List.mem_singleton, List.not_mem_nil, or_false] at hmem
            rcases hmem with h1 | h1
            · exact Or.inl (Query.plain.inj h1).1
            · exact Or.inr (Query.plain.inj h1).1
          · intro hr
            simp at hr
          · intro tb' hr hlen'
            have htb : tb = tb' := Option.some.inj (Except.ok.inj hr)
            rw [← htb] at hlen'
            omega
          · intro tb' hr _hshort
            rw [heq]
  · intro bytes h h2 hz
    have heq : get_subnet_info c netuid false =
        (Outcome.returned (Except.error (ClientError.networkZeroNeurons netuid)),
         [Query.plain "SubnetworkN" [netuid]]) := by
      simp only [get_subnet_info]
      rw [h]
      simp [h2, hz]
    exact ⟨by rw [heq], by rw [heq]⟩
  · intro bytes h hshort
    have hn : ¬ 2 ≤ bytes.length := by omega
    have heq : get_subnet_info c netuid false =
        (Outcome.panicked, [Query.plain "SubnetworkN" [netuid]]) := by
      simp only [get_subnet_info]
      rw [h]
      simp [hn]
    exact ⟨by rw [heq], by rw [heq]⟩

/-- Witness for C6 (amended): on the all-absent oracle the trace is the
defining read plus the diagnostic TotalNetworks read and the result is the
returned not-found error; on the oracle whose TotalNetworks buffer holds a
single byte, the outcome is the modelled abort. -/
theorem c6_subnet_not_found_witness :
    (get_subnet_info c6_chain 1 false).2 =
      [Query.plain "SubnetworkN" [1], Query.plain "TotalNetworks" []]
  ∧ (get_subnet_info c6_chain 1 false).1 =
      Outcome.returned (Except.error (ClientError.networkNotFound 1))
  ∧ (get_subnet_info c6_chain_short 1 false).1 = Outcome.panicked := by
  have h := (c6_subnet_not_found c6_chain 1).1 rfl
  have h' := (c6_subnet_not_found c6_chain_short 1).1 (by decide)
  exact ⟨h.2.1, h.2.2.2.1 rfl, h'.2.2.2.2.2 [7] (by decide) (by decide)⟩

/-- Claim C7 (counterexample): on an oracle where the Uids double map yields
uid 3 for the hotkey but the Neurons read for (1, 3) reports absence,
`check_registration` returns the same non-error "not registered" value
`Except.ok none` instead of failing with a distinct error. -/
theorem c7_counterexample :
    c7_chain.storage (Query.withAccount "Uids" 1 c7_hotkey) = Except.ok (some [3, 0])
  ∧ c7_chain.storage (Query.plain "Neurons" [1, 3]) = Except.ok none
  ∧ check_registration c7_chain 1 c7_hotkey = Except.ok none := by
  exact ⟨by decide, by decide, by decide⟩

/-- Claim C7 (amended): an absent Uids read yields the non-error "not
registered" result; a present Uids read whose Neurons read is absent yields
that same non-error result (no distinct error is raised); and when both
reads are present the placeholder neuron record is returned. -/
theorem c7_registration_lookup (c : Chain) (netuid : Nat) (hotkey : List Nat) :
    (c.storage (Query.withAccount "Uids" netuid hotkey) = Except.ok none →
       check_registration c netuid hotkey = Except.ok none)
  ∧ (∀ bytes, c.storage (Query.withAccount "Uids" netuid hotkey) = Except.ok (some bytes) →
       2 ≤ bytes.length →
       c.storage (Query.plain "Neurons" [netuid, u16_from_le bytes]) = Except.ok none →
       check_registration c netuid hotkey = Except.ok none)
  ∧ (∀ bytes nb, c.storage (Query.withAccount "Uids" netuid hotkey) = Except.ok (some bytes) →
       2 ≤ bytes.length →
       c.storage (Query.plain "Neurons" [netuid, u16_from_le bytes]) = Except.ok (some nb) →
       check_registration c netuid hotkey =
         Except.ok (some (placeholder_neuron hotkey (u16_from_le bytes) netuid))) := by
  refine ⟨?_, ?_, ?_⟩
  · intro h
    simp only [check_registration]
    rw [h]
  · intro bytes h h2 hn
    simp only [check_registration]
    rw [h]
    simp only [if_pos h2]
    rw [hn]
  · intro bytes nb h h2 hn
    simp only [check_registration]
    rw [h]
    simp only [if_pos h2]
    rw [hn]

/-- Witness for C7 (amended): on the concrete oracles, a present uid with
absent neuron data yields `Except.ok none`, and with present neuron data the
placeholder record for uid 3 is returned. -/
theorem c7_registration_lookup_witness :
    check_registration c7_chain 1 c7_hotkey = Except.ok none
  ∧ check_registration c7_chain2 1 c7_hotkey =
      Except.ok (some (placeholder_neuron c7_hotkey 3 1)) := by
  constructor
  · exact (c7_registration_lookup c7_chain 1 c7_hotkey).2.1 [3, 0]
      (by decide) (by decide) (by decide)
  · have h := (c7_registration_lookup c7_chain2 1 c7_hotkey).2.2 [3, 0] [1]
      (by decide) (by decide) (by decide)
    have hu : u16_from_le [3, 0] = 3 := by decide
    rw [hu] at h
    exact h

/-- Claim C8 (counterexample): for the account whose record decodes with
free = 2^64, `get_account_balance` returns 0 — the free balance truncated
`as u64` — not the record's free field. -/
theorem c8_counterexample :
    get_account_info c8_chain c8_account =
      Except.ok { nonce := 0, consumers := 0, providers := 0, sufficients := 0
                  data := { free := 2 ^ 64, reserved := 0, frozen := 0, flags := 0 } }
  ∧ get_account_balance c8_chain c8_account = Except.ok 0
  ∧ get_account_balance c8_chain c8_account ≠ Except.ok (2 ^ 64) := by
  exact ⟨by decide, by decide, by decide⟩

/-- Claim C8 (amended): for every successfully decoded account record the
returned balance is the record's free field reduced modulo 2^64 (the `as
u64` cast), which equals the free field exactly when it is below 2^64. -/
theorem c8_balance_truncated (c : Chain) (account : List Nat)
    (info : AccountInfo)
    (h : get_account_info c account = Except.ok info) :
    get_account_balance c account = Except.ok (info.data.free % 2 ^ 64)
  ∧ (info.data.free < 2 ^ 64 →
       get_account_balance c account = Except.ok info.data.free) := by
  have hbal : get_account_balance c account = Except.ok (info.data.free % 2 ^ 64) := by
    simp only [get_account_balance]
    rw [h]
  exact ⟨hbal, fun hl => by rw [hbal, Nat.mod_eq_of_lt hl]⟩

/-- Witness for C8 (amended) at the 2^64-free-balance oracle: the balance is
the free field modulo 2^64, i.e. zero. -/
theorem c8_balance_truncated_witness :
    get_account_balance c8_chain c8_account = Except.ok (2 ^ 64 % 2 ^ 64) := by
  have h := (c8_balance_truncated c8_chain c8_account
    { nonce := 0, consumers := 0, providers := 0, sufficients := 0
      data := { free := 2 ^ 64, reserved := 0, frozen := 0, flags := 0 } }
    (by decide)).1
  exact h

/-- Claim C9 (counterexample): a transport error on the Tempo field read is
NOT propagated — `get_subnet_info` still succeeds and the tempo field takes
the default 0, so transport failures on non-defining field reads are
absorbed exactly like decode failures. -/
theorem c9_counterexample :
    c9_chain.storage (Query.plain "Tempo" [1]) = Except.error "connection timed out"
  ∧ (get_subnet_info c9_chain 1 false).1 =
      Outcome.returned (Except.ok (mk_snapshot c9_chain 1 1))
  ∧ (mk_snapshot c9_chain 1 1).tempo = 0 := by
  exact ⟨by decide, by decide, by decide⟩

/-- Claim C9 (amended): every failure of a non-defining field read —
transport error, absent key, or decode failure — is absorbed to the default
by the field getter, and `get_subnet_info` succeeds with the assembled
snapshot whenever the defining SubnetworkN read yields a buffer of at least
two bytes with a nonzero count and the block read succeeds, regardless of
the outcome of any field read (a shorter defining buffer aborts the process
instead, per the panic model). -/
theorem c9_field_failures_absorbed (c : Chain) (netuid : Nat)
    (name : String) (keys : List Nat) :
    (∀ e, c.storage (Query.plain name keys) = Except.error e →
       get_bittensor_u16 c name keys = 0)
  ∧ (c.storage (Query.plain name keys) = Except.ok none →
       get_bittensor_u16 c name keys = 0)
  ∧ (∀ bytes, c.storage (Query.plain name keys) = Except.ok (some bytes) →
       scaleDecodeU16 bytes = none → get_bittensor_u16 c name keys = 0)
  ∧ (∀ nb blk, c.storage (Query.plain "SubnetworkN" [netuid]) = Except.ok (some nb) →
       2 ≤ nb.length → u16_from_le nb ≠ 0 → c.blockNumber = Except.ok blk →
       (get_subnet_info c netuid false).1 =
         Outcome.returned (Except.ok (mk_snapshot c netuid (u16_from_le nb)))) := by
  refine ⟨?_, ?_, ?_, ?_⟩
  · intro e h
    simp only [get_bittensor_u16, get_bittensor_storage_decoded, get_bittensor_storage]
    rw [h]
  · intro h
    simp only [get_bittensor_u16, get_bittensor_storage_decoded, get_bittensor_storage]
    rw [h]
  · intro bytes h hd
    simp only [get_bittensor_u16, get_bittensor_storage_decoded, get_bittensor_storage]
    rw [h]
    simp only []
    rw [hd]
  · intro nb blk h hlen hnz hblk
    simp only [get_subnet_info]
    rw [h]
    simp [hlen, hnz, hblk]

/-- Witness for C9 (amended) on the Tempo-transport-error oracle: the tempo
getter returns 0 and the snapshot assembly succeeds. -/
theorem c9_field_failures_absorbed_witness :
    get_bittensor_u16 c9_chain "Tempo" [1] = 0
  ∧ (get_subnet_info c9_chain 1 false).1 =
      Outcome.returned (Except.ok (mk_snapshot c9_chain 1 1)) := by
  constructor
  · exact (c9_field_failures_absorbed c9_chain 1 "Tempo" [1]).1
      "connection timed out" (by decide)
  · have h := (c9_field_failures_absorbed c9_chain 1 "Tempo" [1]).2.2.2 [1, 0] 100
      (by decide) (by decide) (by decide) (by decide)
    have hu : u16_from_le [1, 0] = 1 := by decide
    rw [hu] at h
    exact h

/-- Claim C10: an absent System::Account read makes `get_account_info`
succeed with the all-zero record (nonce, consumers, providers, sufficients,
free, reserved, frozen and flags all zero) and `get_account_balance` succeed
with 0, so at this interface a non-existent account is indistinguishable
from any existing account whose record decodes to a zero free balance. -/
theorem c10_absent_account_zero (c : Chain) (account : List Nat)
    (h : c.storage (Query.sysAccount account) = Except.ok none) :
    get_account_info c account = Except.ok zeroAccountInfo
  ∧ zeroAccountInfo.nonce = 0 ∧ zeroAccountInfo.consumers = 0
  ∧ zeroAccountInfo.providers = 0 ∧ zeroAccountInfo.sufficients = 0
  ∧ zeroAccountInfo.data.free = 0 ∧ zeroAccountInfo.data.reserved = 0
  ∧ zeroAccountInfo.data.frozen = 0 ∧ zeroAccountInfo.data.flags = 0
  ∧ get_account_balance c account = Except.ok 0
  ∧ (∀ c' bytes, c'.storage (Query.sysAccount account) = Except.ok (some bytes) →
      (decode_account_info bytes).data.free = 0 →
      get_account_balance c' account = Except.ok 0) := by
  have hinfo : get_account_info c account = Except.ok zeroAccountInfo := by
    simp only [get_account_info]
    rw [h]
  refine ⟨hinfo, rfl, rfl, rfl, rfl, rfl, rfl, rfl, rfl, ?_, ?_⟩
  · simp only [get_account_balance]
    rw [hinfo]
    rfl
  · intro c' bytes h1 h2
    have hinfo' : get_account_info c' account = Except.ok (decode_account_info bytes) := by
      simp only [get_account_info]
      rw [h1]
    simp only [get_account_balance]
    rw [hinfo']
    simp [h2]

/-- Witness for C10 on the all-absent oracle: the zero record and a zero
balance are returned. -/
theorem c10_absent_account_zero_witness :
    get_account_info c10_chain (List.replicate 32 4) = Except.ok zeroAccountInfo
  ∧ get_account_balance c10_chain (List.replicate 32 4) = Except.ok 0 := by
  have h := c10_absent_account_zero c10_chain (List.replicate 32 4) rfl
  exact ⟨h.1, h.2.2.2.2.2.2.2.2.2.1⟩

end Subtensor
